import Mathlib

/-!
Verification of the PyScriptBridge registry (repository `uniras/PyScriptBridge`).

The repository contains two JavaScript source files:

* `src/unnamed/part_000` — a `PysBridge` class with a *per-function-name*
  readiness signal: `add_func` validates its argument, stores it and resolves
  the signal for that name; `call_func` awaits the signal for that name and
  then silently no-ops when no function is stored.  Instance creation goes
  through `create_pys_bridge`, guarded by a module-private constructor key.
* `src/assets/pysbridge.js` — an older `PysBridge` class with a *single
  instance-wide* promise (resolved only by an explicit `resolve()` call;
  `add_func` stores unconditionally and resolves nothing; the second
  `create_pys_bridge` call for an existing id falls through and returns
  `undefined`), plus a flat global API (`pys_promise`, `pys_wait`,
  `pys_resolve`, `pys_register_state`, `pys_register_ref`, `pys_func`,
  `pys_get`, `pys_set`, `pys_ref`, `pys_call_func`).

The shallow embedding below models each part.  JavaScript objects used as
string-keyed dictionaries become association lists with in-place overwrite
(`setEntry`), preserving insertion order like JS property tables.  The
single-threaded cooperative scheduling of the JS event loop is modelled by
explicit `pending` lists of suspended `call_func` continuations: awaiting an
unresolved promise appends the continuation, and resolving a promise runs the
attached continuations in order.  External callables (function and setter
objects handed to the bridge) are identified by numeric ids, and their
invocations are recorded in append-only logs (`calls`, `setterCalls`), so
"`fn` is invoked with exactly those arguments" is a statement about the log.
Methods whose JS bodies can throw return `Except String`; methods whose
bodies contain no throw are total functions.
-/

/-- A JavaScript runtime value, as far as the bridge inspects one:
`undef` is the JS `undefined`; `fn id` is a function object identified by
`id` (`typeof v === "function"` holds exactly for these); the remaining
constructors are non-callable, defined values. -/
inductive JSValue where
  | undef
  | bool (b : Bool)
  | num (n : Int)
  | str (s : String)
  | fn (id : Nat)
  | obj (id : Nat)
deriving DecidableEq

/-- The JS test `typeof v === "function"`. -/
def JSValue.isFunction : JSValue → Bool
  | .fn _ => true
  | _ => false

/-- Property lookup in a JS object used as a dictionary: the first entry with
the given key, `none` when the property is absent.  (Keys are strings for
the bridge dictionaries and numbers for the modelled instance heap.) -/
def alookup {κ α : Type} [DecidableEq κ] : List (κ × α) → κ → Option α
  | [], _ => none
  | (k1, v1) :: rest, k => if k1 = k then some v1 else alookup rest k

/-- Property assignment `o[k] = v` on a JS object used as a dictionary:
overwrite in place when the key is present, append otherwise (JS property
tables preserve insertion order). -/
def setEntry {κ α : Type} [DecidableEq κ] : List (κ × α) → κ → α → List (κ × α)
  | [], k, v => [(k, v)]
  | (k1, v1) :: rest, k, v =>
      if k1 = k then (k, v) :: rest else (k1, v1) :: setEntry rest k v

namespace PartZero

/-!
Model of the `PysBridge` class of `src/unnamed/part_000` (the per-name-signal
variant).  One instance's private fields `#states`, `#refs`, `#funcs` and
`#promise` become the four dictionaries below; `pending` holds the suspended
`call_func` continuations (waiter name and arguments, in arrival order);
`calls` and `setterCalls` log invocations of registered function objects and
state setters.  A promise entry `(n, b)` means the signal for `n` has been
created (`#promise[n]` is defined) and `b` tells whether it is resolved.
-/

/-- Private per-instance state of a `part_000` `PysBridge` object. -/
structure PState where
  states : List (String × JSValue × Nat)
  refs : List (String × JSValue)
  funcs : List (String × JSValue)
  promise : List (String × Bool)
  pending : List (String × List JSValue)
  calls : List (Nat × List JSValue)
  setterCalls : List (Nat × JSValue)
deriving DecidableEq

/-- The state of a freshly constructed instance. -/
def PState.init : PState := ⟨[], [], [], [], [], [], []⟩

/-- The continuation of `call_func` after its `await`: re-read
`this.#funcs[name]`; when it is a function, invoke it with the stored
arguments (logged in `calls`); otherwise do nothing (`part_000` has no
`else` branch there). -/
def runWaiter (s : PState) (n : String) (args : List JSValue) : PState :=
  match alookup s.funcs n with
  | some (JSValue.fn id) => { s with calls := s.calls ++ [(id, args)] }
  | _ => s

/-- Run the continuations attached to a just-resolved promise, in order. -/
def releaseList (s : PState) : List (String × List JSValue) → PState
  | [] => s
  | w :: rest => releaseList (runWaiter s w.1 w.2) rest

/-- `PysBridge.#resolve(funcname)`: create the promise for the name if it
does not exist, then call its `resolve`.  Resolving an already-fulfilled
promise changes nothing; a first resolution marks the signal resolved and
runs the continuations waiting on that name, in arrival order. -/
def resolveSignal (s : PState) (n : String) : PState :=
  if alookup s.promise n = some true then s
  else
    releaseList
      { s with promise := setEntry s.promise n true,
               pending := s.pending.filter (fun w => w.1 ≠ n) }
      (s.pending.filter (fun w => w.1 = n))

/-- `PysBridge.add_state(name, stateObject, stateSetterObject)`: the getter
value and the setter object (by id) are stored unconditionally. -/
def add_state (s : PState) (n : String) (g : JSValue) (sid : Nat) : PState :=
  { s with states := setEntry s.states n (g, sid) }

/-- `PysBridge.state(name)`: return the stored getter value, or throw
when no entry for the name exists. -/
def state (s : PState) (n : String) : Except String JSValue :=
  match alookup s.states n with
  | some gs => Except.ok gs.1
  | none => Except.error ("State " ++ n ++ " not found.")

/-- `PysBridge.set_state(name, value)`: invoke the stored setter with the
value (logged in `setterCalls`), or throw when no entry exists. -/
def set_state (s : PState) (n : String) (v : JSValue) : Except String PState :=
  match alookup s.states n with
  | some gs => Except.ok { s with setterCalls := s.setterCalls ++ [(gs.2, v)] }
  | none => Except.error ("State " ++ n ++ " not found.")

/-- `PysBridge.has_state(name)`: `typeof this.#states[name] !== "undefined"`;
entries are always `{getter, setter}` objects, so this is key presence. -/
def has_state (s : PState) (n : String) : Bool :=
  (alookup s.states n).isSome

/-- `PysBridge.add_ref(name, value)`: unconditional overwrite. -/
def add_ref (s : PState) (n : String) (v : JSValue) : PState :=
  { s with refs := setEntry s.refs n v }

/-- `PysBridge.ref(name)`: the guard is `typeof this.#refs[name] !==
"undefined"`, which also fails when the stored value is the JS `undefined`. -/
def ref (s : PState) (n : String) : Except String JSValue :=
  match alookup s.refs n with
  | some v =>
      if v = JSValue.undef then Except.error ("Var " ++ n ++ " not found.")
      else Except.ok v
  | none => Except.error ("Var " ++ n ++ " not found.")

/-- `PysBridge.has_ref(name)`: `typeof this.#refs[name] !== "undefined"`,
false both for a missing key and for a stored `undefined`. -/
def has_ref (s : PState) (n : String) : Bool :=
  match alookup s.refs n with
  | some v => v ≠ JSValue.undef
  | none => false

/-- `PysBridge.add_func(name, funcObject)`: throw when the argument is not a
function; otherwise store it and resolve the readiness signal for the name. -/
def add_func (s : PState) (n : String) (v : JSValue) : Except String PState :=
  if v.isFunction then
    Except.ok (resolveSignal { s with funcs := setEntry s.funcs n v } n)
  else
    Except.error "Function must be a function."

/-- `PysBridge.call_func(name, ...args)`: `await this.#wait(name)` creates
the signal when absent and suspends until it resolves; a call on a resolved
signal proceeds immediately to the continuation (`runWaiter`).  The method
body never throws: a missing function after the wait is a silent no-op. -/
def call_func (s : PState) (n : String) (args : List JSValue) : PState :=
  match alookup s.promise n with
  | some true => runWaiter s n args
  | some false => { s with pending := s.pending ++ [(n, args)] }
  | none =>
      { s with promise := setEntry s.promise n false,
               pending := s.pending ++ [(n, args)] }

/-- `PysBridge.has_func(name)`: `typeof this.#funcs[name] === "function"`. -/
def has_func (s : PState) (n : String) : Bool :=
  match alookup s.funcs n with
  | some (JSValue.fn _) => true
  | _ => false

/-- The module-private key `PRIVATE_CONSTRUCTOR_KEY = Symbol()` of
`part_000`.  Keys are modelled as naturals; the symbol's unforgeability
outside the module becomes: any caller holding a key different from this
one is rejected by the constructor. -/
def PRIVATE_CONSTRUCTOR_KEY : Nat := 0

/-- `PysBridge.#pysBridgeGlobalName`, the well-known default instance id. -/
def pysBridgeGlobalName : String := "$pys_bridge_global_name"

/-- `PysBridge.#get_uuid_ref(pysid)` for string arguments: the empty id is
normalized to the default id (a non-string argument throws and is excluded
by the embedding's types). -/
def get_uuid_ref (pysid : String) : String :=
  if pysid = "" then pysBridgeGlobalName else pysid

/-- The process-wide side of `part_000`: the static map
`PysBridge.#pysBridge` from normalized id to instance.  JS instances are
heap references, so the map stores instance identities (numbers allocated
by `nextId`) and `insts` is the heap giving each identity its private
state; mutating an instance through any alias mutates the `insts` entry. -/
structure Registry where
  bridges : List (String × Nat)
  insts : List (Nat × PState)
  nextId : Nat
deriving DecidableEq

/-- The registry at program start: no instance exists. -/
def Registry.init : Registry := ⟨[], [], 0⟩

/-- The body of `constructor(pysid, privateConstructorKey)` after the key
check: normalize the id, initialize the private stores, and record the new
instance in the static map.  Returns the updated registry and the identity
of the new instance. -/
def newPysBridge (r : Registry) (pysid : String) : Registry × Nat :=
  ({ bridges := setEntry r.bridges (get_uuid_ref pysid) r.nextId,
     insts := setEntry r.insts r.nextId PState.init,
     nextId := r.nextId + 1 }, r.nextId)

/-- `new PysBridge(pysid, key)`: throws unless the caller supplies the
module-private constructor key; otherwise runs the constructor body. -/
def pysConstructor (r : Registry) (pysid : String) (key : Nat) :
    Except String (Registry × Nat) :=
  if key = PRIVATE_CONSTRUCTOR_KEY then Except.ok (newPysBridge r pysid)
  else Except.error "Cannot instantiate PysBridge directly."

/-- `PysBridge.create_pys_bridge(pysid)` of `part_000`: return the existing
instance for the normalized id, or construct one (the call
`new PysBridge(pysid, PRIVATE_CONSTRUCTOR_KEY)` passes the key check, so
its body is `newPysBridge`). -/
def create_pys_bridge (r : Registry) (pysid : String) : Registry × Nat :=
  match alookup r.bridges (get_uuid_ref pysid) with
  | some i => (r, i)
  | none => newPysBridge r pysid

/-- `PysBridge.get_pys_bridge(pysid)`: return the existing instance or throw
an error naming the normalized id. -/
def get_pys_bridge (r : Registry) (pysid : String) : Except String Nat :=
  match alookup r.bridges (get_uuid_ref pysid) with
  | some i => Except.ok i
  | none => Except.error ("Bridge id " ++ get_uuid_ref pysid ++ " not found.")

/-- `PysBridge.has_pys_bridge(pysid)`: normalized existence check. -/
def has_pys_bridge (r : Registry) (pysid : String) : Bool :=
  (alookup r.bridges (get_uuid_ref pysid)).isSome

/-- `PysBridge.get_pys_bridge(pysid).add_state(n, g, sid)`: mutate the
instance registered under `pysid` through the heap; a missing instance or a
thrown lookup leaves the heap unchanged. -/
def reg_add_state (r : Registry) (pysid n : String) (g : JSValue) (sid : Nat) : Registry :=
  match alookup r.bridges (get_uuid_ref pysid) with
  | some i =>
      match alookup r.insts i with
      | some st => { r with insts := setEntry r.insts i (add_state st n g sid) }
      | none => r
  | none => r

/-- `PysBridge.get_pys_bridge(pysid).add_ref(n, v)` through the heap. -/
def reg_add_ref (r : Registry) (pysid n : String) (v : JSValue) : Registry :=
  match alookup r.bridges (get_uuid_ref pysid) with
  | some i =>
      match alookup r.insts i with
      | some st => { r with insts := setEntry r.insts i (add_ref st n v) }
      | none => r
  | none => r

/-- `PysBridge.get_pys_bridge(pysid).add_func(n, v)` through the heap; when
`add_func` throws, the instance is unchanged. -/
def reg_add_func (r : Registry) (pysid n : String) (v : JSValue) : Registry :=
  match alookup r.bridges (get_uuid_ref pysid) with
  | some i =>
      match alookup r.insts i with
      | some st =>
          match add_func st n v with
          | Except.ok st1 => { r with insts := setEntry r.insts i st1 }
          | Except.error _ => r
      | none => r
  | none => r

/-- `PysBridge.get_pys_bridge(pysid).has_state(n)`, false when no instance
is registered under the id. -/
def reg_has_state (r : Registry) (pysid n : String) : Bool :=
  match alookup r.bridges (get_uuid_ref pysid) with
  | some i =>
      match alookup r.insts i with
      | some st => has_state st n
      | none => false
  | none => false

/-- One instance-level operation of the `part_000` class, for stating
invariants over every way the private state can evolve. -/
inductive AEvent where
  | addStateEvt (n : String) (g : JSValue) (sid : Nat)
  | setStateEvt (n : String) (v : JSValue)
  | addRefEvt (n : String) (v : JSValue)
  | addFuncEvt (n : String) (v : JSValue)
  | callFuncEvt (n : String) (args : List JSValue)

/-- Apply one operation to an instance; a thrown operation leaves the
state unchanged. -/
def pstep (s : PState) : AEvent → PState
  | .addStateEvt n g sid => add_state s n g sid
  | .setStateEvt n v =>
      match set_state s n v with
      | Except.ok s1 => s1
      | Except.error _ => s
  | .addRefEvt n v => add_ref s n v
  | .addFuncEvt n v =>
      match add_func s n v with
      | Except.ok s1 => s1
      | Except.error _ => s
  | .callFuncEvt n args => call_func s n args

end PartZero

namespace Asset

/-!
Model of the `PysBridge` class of `src/assets/pysbridge.js`.  This variant
has a *single* instance-wide promise `#promise`, created in the constructor
and resolved only by an explicit `resolve()` call; `add_func` is a bare
assignment (no validation, no signal), and the continuation of `call_func`
throws when no function is stored (modelled by the `errs` log, since the
throw rejects the asynchronous call's own promise).  Only the members the
verified claims depend on are modelled; `#states`, `#refs` and the lookup
methods coincide textually with the `part_000` variant modelled above. -/

/-- Private state of an `assets/pysbridge.js` `PysBridge` instance:
`resolved` is the state of the single instance-wide promise, `pending`
holds the suspended `call_func` continuations (name and arguments). -/
structure JState where
  funcs : List (String × JSValue)
  resolved : Bool
  pending : List (String × List JSValue)
  calls : List (Nat × List JSValue)
  errs : List String
deriving DecidableEq

/-- A freshly constructed instance: the promise exists and is unresolved. -/
def JState.init : JState := ⟨[], false, [], [], []⟩

/-- The continuation of this variant's `call_func` after its `await`:
invoke `this.#funcs[name]` when it is a function, otherwise throw
`Function ... not function.` (logged in `errs`). -/
def JState.runJWaiter (s : JState) (n : String) (args : List JSValue) : JState :=
  match alookup s.funcs n with
  | some (JSValue.fn id) => { s with calls := s.calls ++ [(id, args)] }
  | _ => { s with errs := s.errs ++ ["Function " ++ n ++ " not function."] }

/-- Run the continuations attached to the just-resolved instance promise. -/
def JState.releaseAll (s : JState) : List (String × List JSValue) → JState
  | [] => s
  | w :: rest => JState.releaseAll (s.runJWaiter w.1 w.2) rest

/-- `PysBridge.prototype.add_func(name, funcObject)` of the asset variant:
a single assignment — no invocability check, no throw, and no effect on the
instance promise. -/
def JState.add_func (s : JState) (n : String) (v : JSValue) : JState :=
  { s with funcs := setEntry s.funcs n v }

/-- `PysBridge.prototype.resolve()` of the asset variant: resolve the single
instance promise; a first resolution releases every suspended `call_func`
in arrival order, a repeated resolution changes nothing. -/
def JState.resolve (s : JState) : JState :=
  if s.resolved then s
  else JState.releaseAll { s with resolved := true, pending := [] } s.pending

/-- `PysBridge.prototype.call_func(name, ...args)` of the asset variant:
`await this.wait()` awaits the single instance promise — the call suspends
whenever that promise is unresolved, regardless of whether a function is
already stored under the name. -/
def JState.call_func (s : JState) (n : String) (args : List JSValue) : JState :=
  if s.resolved then s.runJWaiter n args
  else { s with pending := s.pending ++ [(n, args)] }

/-- The static map `PysBridge.#pysBridge` of the asset variant.  Instance
private state is irrelevant to the claims about this variant's instance
manager, so the heap records only identities. -/
structure JRegistry where
  bridges : List (String × Nat)
  nextId : Nat
deriving DecidableEq

/-- The asset-variant registry at program start. -/
def JRegistry.init : JRegistry := ⟨[], 0⟩

/-- `PysBridge.get_uuid_ref` of the asset variant (textually the same
normalization as in `part_000`). -/
def get_uuid_ref (pysid : String) : String := PartZero.get_uuid_ref pysid

/-- `PysBridge.create_pys_bridge(pysid)` of the asset variant: construct and
return a new instance when none exists for the normalized id; when one
exists the function body falls through without a `return`, so the call
evaluates to `undefined` (`none`). -/
def create_pys_bridge (r : JRegistry) (pysid : String) : JRegistry × Option Nat :=
  match alookup r.bridges (get_uuid_ref pysid) with
  | none =>
      ({ bridges := setEntry r.bridges (get_uuid_ref pysid) r.nextId,
         nextId := r.nextId + 1 }, some r.nextId)
  | some _ => (r, none)

end Asset

namespace FlatApi

/-!
Model of the flat global API of `src/assets/pysbridge.js`: the four global
dictionaries `__pysPromises`, `__pysStates`, `__pysRefs`, `__pysFunctions`
and the `pys_*` functions operating on them.  `pending` holds suspended
`pys_call_func` continuations as (promise name, function name, arguments);
`calls`, `setterCalls` and `errs` log invocations of registered functions,
invocations of state setters, and asynchronous `not function` failures. -/

/-- The global mutable state of the flat API. -/
structure GState where
  pysPromises : List (String × Bool)
  pysStates : List (String × JSValue × Nat)
  pysRefs : List (String × JSValue)
  pysFunctions : List (String × JSValue)
  pending : List (String × String × List JSValue)
  calls : List (Nat × List JSValue)
  setterCalls : List (Nat × JSValue)
  errs : List String
deriving DecidableEq

/-- The flat API state right after the script is loaded. -/
def GState.init : GState := ⟨[], [], [], [], [], [], [], []⟩

/-- `pys_promise(promiseName)`: create the named promise when it does not
exist; an existing promise (resolved or not) is left untouched. -/
def pys_promise (g : GState) (promiseName : String) : GState :=
  match alookup g.pysPromises promiseName with
  | none => { g with pysPromises := setEntry g.pysPromises promiseName false }
  | some _ => g

/-- The continuation of `pys_call_func` after its optional `await`: invoke
`__pysFunctions[functionName]` when it is a function, otherwise throw
`Function ... not function.` (logged in `errs`, since `pys_call_func` is
asynchronous and the throw rejects its own promise). -/
def runGCall (g : GState) (functionName : String) (args : List JSValue) : GState :=
  match alookup g.pysFunctions functionName with
  | some (JSValue.fn id) => { g with calls := g.calls ++ [(id, args)] }
  | _ => { g with errs := g.errs ++ ["Function " ++ functionName ++ " not function."] }

/-- Run the continuations attached to a just-resolved named promise. -/
def releaseGList (g : GState) : List (String × String × List JSValue) → GState
  | [] => g
  | w :: rest => releaseGList (runGCall g w.2.1 w.2.2) rest

/-- `pys_resolve(promiseName)`: create the promise when absent, then call
its `resolve`.  Resolving an already-fulfilled promise changes nothing; a
first resolution marks it resolved and runs the continuations waiting on
that promise name, in arrival order. -/
def pys_resolve (g : GState) (promiseName : String) : GState :=
  if alookup g.pysPromises promiseName = some true then g
  else
    releaseGList
      { g with pysPromises := setEntry g.pysPromises promiseName true,
               pending := g.pending.filter (fun w => w.1 ≠ promiseName) }
      (g.pending.filter (fun w => w.1 = promiseName))

/-- `pys_register_state(stateName, stateObject, stateSetterObject)`:
unconditional overwrite of the getter value and setter object id. -/
def pys_register_state (g : GState) (n : String) (v : JSValue) (sid : Nat) : GState :=
  { g with pysStates := setEntry g.pysStates n (v, sid) }

/-- `pys_register_ref(refName, refObject)`: unconditional overwrite. -/
def pys_register_ref (g : GState) (n : String) (v : JSValue) : GState :=
  { g with pysRefs := setEntry g.pysRefs n v }

/-- `pys_func(functionName, functionObject)`: unconditional overwrite,
with no invocability check in this flat variant. -/
def pys_func (g : GState) (n : String) (v : JSValue) : GState :=
  { g with pysFunctions := setEntry g.pysFunctions n v }

/-- `pys_get(stateName)`: the stored getter value, or a thrown
`State ... not found.`. -/
def pys_get (g : GState) (n : String) : Except String JSValue :=
  match alookup g.pysStates n with
  | some gs => Except.ok gs.1
  | none => Except.error ("State " ++ n ++ " not found.")

/-- `pys_set(stateName, value)`: invoke the stored setter with the value
(logged in `setterCalls`), or throw `State ... not found.`. -/
def pys_set (g : GState) (n : String) (v : JSValue) : Except String GState :=
  match alookup g.pysStates n with
  | some gs => Except.ok { g with setterCalls := g.setterCalls ++ [(gs.2, v)] }
  | none => Except.error ("State " ++ n ++ " not found.")

/-- `pys_ref(refName)`: guarded by `typeof __pysRefs[refName] !==
"undefined"`, which also fails when the stored value is `undefined`. -/
def pys_ref (g : GState) (n : String) : Except String JSValue :=
  match alookup g.pysRefs n with
  | some v =>
      if v = JSValue.undef then Except.error ("Ref " ++ n ++ " not found.")
      else Except.ok v
  | none => Except.error ("Ref " ++ n ++ " not found.")

/-- `pys_call_func(functionName, promiseName, ...args)`: when `promiseName`
is a non-empty string, `await pys_wait(promiseName)` — create the promise
when absent and suspend until it resolves, proceeding at once when it is
already resolved; otherwise (omitted, non-string, or the empty string —
modelled as `none` / `some ""`) skip the wait.  The continuation is
`runGCall`.  -/
def pys_call_func (g : GState) (functionName : String) (promiseName : Option String)
    (args : List JSValue) : GState :=
  match promiseName with
  | some pn =>
      if pn = "" then runGCall g functionName args
      else
        match alookup g.pysPromises pn with
        | some true => runGCall g functionName args
        | some false => { g with pending := g.pending ++ [(pn, functionName, args)] }
        | none =>
            { g with pysPromises := setEntry g.pysPromises pn false,
                     pending := g.pending ++ [(pn, functionName, args)] }
  | none => runGCall g functionName args

/-- One state-changing operation of the flat API, for stating invariants
over every way the global state can evolve. -/
inductive GEvent where
  | promiseEvt (n : String)
  | resolveEvt (n : String)
  | registerStateEvt (n : String) (v : JSValue) (sid : Nat)
  | registerRefEvt (n : String) (v : JSValue)
  | funcEvt (n : String) (v : JSValue)
  | setEvt (n : String) (v : JSValue)
  | callFuncEvt (f : String) (pn : Option String) (args : List JSValue)

/-- Apply one flat-API operation; a thrown operation leaves the global
state unchanged. -/
def gstep (g : GState) : GEvent → GState
  | .promiseEvt n => pys_promise g n
  | .resolveEvt n => pys_resolve g n
  | .registerStateEvt n v sid => pys_register_state g n v sid
  | .registerRefEvt n v => pys_register_ref g n v
  | .funcEvt n v => pys_func g n v
  | .setEvt n v =>
      match pys_set g n v with
      | Except.ok g1 => g1
      | Except.error _ => g
  | .callFuncEvt f pn args => pys_call_func g f pn args

end FlatApi

/-!
Supporting lemmas about the dictionary primitives and the continuation
runners, shared by the claim theorems below.
-/

theorem alookup_setEntry_self {κ α : Type} [DecidableEq κ]
    (l : List (κ × α)) (k : κ) (v : α) :
    alookup (setEntry l k v) k = some v := by
  induction l with
  | nil => simp [setEntry, alookup]
  | cons hd tl ih =>
    obtain ⟨k1, v1⟩ := hd
    by_cases h : k1 = k
    · simp [setEntry, h, alookup]
    · simp [setEntry, h, alookup, ih]

theorem alookup_setEntry_ne {κ α : Type} [DecidableEq κ]
    (l : List (κ × α)) {k k2 : κ} (v : α)
    (h : k2 ≠ k) : alookup (setEntry l k v) k2 = alookup l k2 := by
  have hne : k ≠ k2 := fun hc => h hc.symm
  induction l with
  | nil => simp [setEntry, alookup, hne]
  | cons hd tl ih =>
    obtain ⟨k1, v1⟩ := hd
    by_cases h1 : k1 = k
    · subst h1
      simp [setEntry, alookup, hne]
    · by_cases h2 : k1 = k2
      · subst h2
        simp [setEntry, alookup, h]
      · simp [setEntry, alookup, h1, h2, ih]

theorem releaseList_shape (ws : List (String × List JSValue)) (s : PartZero.PState) :
    ∃ ex, PartZero.releaseList s ws = { s with calls := s.calls ++ ex } := by
  induction ws generalizing s with
  | nil => exact ⟨[], by simp [PartZero.releaseList]⟩
  | cons w rest ih =>
    obtain ⟨ex, hex⟩ := ih (PartZero.runWaiter s w.1 w.2)
    rw [PartZero.releaseList]
    cases hfn : alookup s.funcs w.1 with
    | none =>
        refine ⟨ex, ?_⟩
        rw [hex]
        simp [PartZero.runWaiter, hfn]
    | some v =>
        cases v with
        | fn id =>
            refine ⟨(id, w.2) :: ex, ?_⟩
            rw [hex]
            simp [PartZero.runWaiter, hfn]
        | undef => exact ⟨ex, by rw [hex]; simp [PartZero.runWaiter, hfn]⟩
        | bool b => exact ⟨ex, by rw [hex]; simp [PartZero.runWaiter, hfn]⟩
        | num m => exact ⟨ex, by rw [hex]; simp [PartZero.runWaiter, hfn]⟩
        | str t => exact ⟨ex, by rw [hex]; simp [PartZero.runWaiter, hfn]⟩
        | obj o => exact ⟨ex, by rw [hex]; simp [PartZero.runWaiter, hfn]⟩

theorem releaseList_promise (ws : List (String × List JSValue)) (s : PartZero.PState) :
    (PartZero.releaseList s ws).promise = s.promise := by
  obtain ⟨ex, hex⟩ := releaseList_shape ws s
  rw [hex]

theorem releaseList_pending (ws : List (String × List JSValue)) (s : PartZero.PState) :
    (PartZero.releaseList s ws).pending = s.pending := by
  obtain ⟨ex, hex⟩ := releaseList_shape ws s
  rw [hex]

theorem releaseList_funcs (ws : List (String × List JSValue)) (s : PartZero.PState) :
    (PartZero.releaseList s ws).funcs = s.funcs := by
  obtain ⟨ex, hex⟩ := releaseList_shape ws s
  rw [hex]

theorem runWaiter_promise (s : PartZero.PState) (n : String) (args : List JSValue) :
    (PartZero.runWaiter s n args).promise = s.promise := by
  rw [PartZero.runWaiter]
  split <;> rfl

theorem releaseGList_shape (ws : List (String × String × List JSValue))
    (g : FlatApi.GState) :
    ∃ exc exe, FlatApi.releaseGList g ws
      = { g with calls := g.calls ++ exc, errs := g.errs ++ exe } := by
  induction ws generalizing g with
  | nil => exact ⟨[], [], by simp [FlatApi.releaseGList]⟩
  | cons w rest ih =>
    obtain ⟨exc, exe, hex⟩ := ih (FlatApi.runGCall g w.2.1 w.2.2)
    rw [FlatApi.releaseGList]
    cases hfn : alookup g.pysFunctions w.2.1 with
    | none =>
        refine ⟨exc, ("Function " ++ w.2.1 ++ " not function.") :: exe, ?_⟩
        rw [hex]; simp [FlatApi.runGCall, hfn]
    | some v =>
        cases v with
        | fn id =>
            refine ⟨(id, w.2.2) :: exc, exe, ?_⟩
            rw [hex]; simp [FlatApi.runGCall, hfn]
        | undef =>
            refine ⟨exc, ("Function " ++ w.2.1 ++ " not function.") :: exe, ?_⟩
            rw [hex]; simp [FlatApi.runGCall, hfn]
        | bool b =>
            refine ⟨exc, ("Function " ++ w.2.1 ++ " not function.") :: exe, ?_⟩
            rw [hex]; simp [FlatApi.runGCall, hfn]
        | num m =>
            refine ⟨exc, ("Function " ++ w.2.1 ++ " not function.") :: exe, ?_⟩
            rw [hex]; simp [FlatApi.runGCall, hfn]
        | str t =>
            refine ⟨exc, ("Function " ++ w.2.1 ++ " not function.") :: exe, ?_⟩
            rw [hex]; simp [FlatApi.runGCall, hfn]
        | obj o =>
            refine ⟨exc, ("Function " ++ w.2.1 ++ " not function.") :: exe, ?_⟩
            rw [hex]; simp [FlatApi.runGCall, hfn]

theorem releaseGList_promises (ws : List (String × String × List JSValue))
    (g : FlatApi.GState) :
    (FlatApi.releaseGList g ws).pysPromises = g.pysPromises := by
  obtain ⟨exc, exe, hex⟩ := releaseGList_shape ws g
  rw [hex]

theorem releaseGList_pending (ws : List (String × String × List JSValue))
    (g : FlatApi.GState) :
    (FlatApi.releaseGList g ws).pending = g.pending := by
  obtain ⟨exc, exe, hex⟩ := releaseGList_shape ws g
  rw [hex]

theorem runGCall_pysPromises (g : FlatApi.GState) (n : String) (args : List JSValue) :
    (FlatApi.runGCall g n args).pysPromises = g.pysPromises := by
  rw [FlatApi.runGCall]
  split <;> rfl

/-!
Claim theorems.
-/

/-- C3: In the per-name-signal variant, `create_pys_bridge` is idempotent —
a second call for the same id (and for the empty id versus the normalized
default id) returns the identical instance.  In the `assets/pysbridge.js`
variant, the second call falls through without a `return` and evaluates to
`undefined` (`none`) instead of the existing instance, although the spec
and the sibling variant both promise the existing instance: the missing
`else` branch is a code bug.  This theorem evaluates both variants at the
failing input. -/
theorem c3_create_pys_bridge_second_call_eval :
    (PartZero.create_pys_bridge (PartZero.create_pys_bridge PartZero.Registry.init "a").1 "a").2
      = (PartZero.create_pys_bridge PartZero.Registry.init "a").2 ∧
    (PartZero.create_pys_bridge (PartZero.create_pys_bridge PartZero.Registry.init "").1
        "$pys_bridge_global_name").2
      = (PartZero.create_pys_bridge PartZero.Registry.init "").2 ∧
    (Asset.create_pys_bridge Asset.JRegistry.init "a").2 = some 0 ∧
    (Asset.create_pys_bridge (Asset.create_pys_bridge Asset.JRegistry.init "a").1 "a").2
      = none := by
  decide

/-- C6: After `add_state(n, g, setter)`, a `set_state(n, v)` call succeeds
and its entire effect is to append one invocation of the registered setter
with argument `v` to the setter log — the setter runs exactly once and no
store changes; and `state(n)` afterwards still returns the getter snapshot
`g`, unaffected by the `set_state`. -/
theorem c6_set_state_snapshot
    (s : PartZero.PState) (n : String) (g v : JSValue) (sid : Nat) :
    PartZero.set_state (PartZero.add_state s n g sid) n v
      = Except.ok { PartZero.add_state s n g sid with
          setterCalls := s.setterCalls ++ [(sid, v)] } ∧
    PartZero.state { PartZero.add_state s n g sid with
          setterCalls := s.setterCalls ++ [(sid, v)] } n
      = Except.ok g := by
  constructor
  · simp [PartZero.set_state, PartZero.add_state, alookup_setEntry_self]
  · simp [PartZero.state, PartZero.add_state, alookup_setEntry_self]

/-- C7: `get_pys_bridge(id)` fails with an error naming the normalized id
when no instance is registered under it, and returns the registered
instance (without failing) when one is. -/
theorem c7_get_pys_bridge_lookup (r : PartZero.Registry) (pysid : String) :
    (alookup r.bridges (PartZero.get_uuid_ref pysid) = none →
      PartZero.get_pys_bridge r pysid
        = Except.error ("Bridge id " ++ PartZero.get_uuid_ref pysid ++ " not found.")) ∧
    (∀ i, alookup r.bridges (PartZero.get_uuid_ref pysid) = some i →
      PartZero.get_pys_bridge r pysid = Except.ok i) := by
  constructor
  · intro h
    simp [PartZero.get_pys_bridge, h]
  · intro i h
    simp [PartZero.get_pys_bridge, h]

/-- Witness for C7 at concrete inputs: the empty registry has no instance
named `missing`, and a registry built by `create_pys_bridge` returns the
created instance. -/
theorem c7_get_pys_bridge_lookup_witness :
    PartZero.get_pys_bridge PartZero.Registry.init "missing"
      = Except.error "Bridge id missing not found." ∧
    PartZero.get_pys_bridge (PartZero.create_pys_bridge PartZero.Registry.init "a").1 "a"
      = Except.ok 0 := by
  constructor
  · exact (c7_get_pys_bridge_lookup PartZero.Registry.init "missing").1 (by decide)
  · exact (c7_get_pys_bridge_lookup
      (PartZero.create_pys_bridge PartZero.Registry.init "a").1 "a").2 0 (by decide)

/-- C9: Registering the JS `undefined` as a ref is indistinguishable from
never registering, because presence is tested with `typeof v !==
"undefined"`: after `add_ref(n, undefined)` (instance variant) or
`pys_register_ref(n, undefined)` (flat variant), the existence predicate is
false and the lookup fails with the not-found error. -/
theorem c9_undefined_ref_unregistered
    (s : PartZero.PState) (g : FlatApi.GState) (n : String) :
    PartZero.has_ref (PartZero.add_ref s n JSValue.undef) n = false ∧
    PartZero.ref (PartZero.add_ref s n JSValue.undef) n
      = Except.error ("Var " ++ n ++ " not found.") ∧
    FlatApi.pys_ref (FlatApi.pys_register_ref g n JSValue.undef) n
      = Except.error ("Ref " ++ n ++ " not found.") := by
  refine ⟨?_, ?_, ?_⟩
  · simp [PartZero.has_ref, PartZero.add_ref, alookup_setEntry_self]
  · simp [PartZero.ref, PartZero.add_ref, alookup_setEntry_self]
  · simp [FlatApi.pys_ref, FlatApi.pys_register_ref, alookup_setEntry_self]

/-- C10: The `part_000` constructor rejects every caller that does not
supply the module-private constructor key; with the key it runs the
constructor body, which records the new instance in the process-wide map
under the normalized id.  Since the key is private to the module, instances
can only come into existence through `create_pys_bridge` (whose
construction path is exactly `newPysBridge`). -/
theorem c10_private_constructor_guard
    (r : PartZero.Registry) (pysid : String) (k : Nat) :
    (k ≠ PartZero.PRIVATE_CONSTRUCTOR_KEY →
      PartZero.pysConstructor r pysid k
        = Except.error "Cannot instantiate PysBridge directly.") ∧
    PartZero.pysConstructor r pysid PartZero.PRIVATE_CONSTRUCTOR_KEY
      = Except.ok (PartZero.newPysBridge r pysid) ∧
    alookup (PartZero.newPysBridge r pysid).1.bridges (PartZero.get_uuid_ref pysid)
      = some (PartZero.newPysBridge r pysid).2 := by
  refine ⟨?_, ?_, ?_⟩
  · intro h
    simp [PartZero.pysConstructor, h]
  · simp [PartZero.pysConstructor]
  · simp [PartZero.newPysBridge, alookup_setEntry_self]

/-- Witness for C10: a caller holding the key `1` (any value other than the
module-private key) is rejected. -/
theorem c10_private_constructor_guard_witness :
    PartZero.pysConstructor PartZero.Registry.init "a" 1
      = Except.error "Cannot instantiate PysBridge directly." :=
  (c10_private_constructor_guard PartZero.Registry.init "a" 1).1 (by decide)

/-- Looking up an instance through `reg_has_state` only depends on the
static map and on the heap entry of the instance registered under the id. -/
theorem reg_has_state_congr (r r2 : PartZero.Registry) (b x : String) (ib : Nat)
    (hbr : r2.bridges = r.bridges)
    (hib : alookup r.bridges (PartZero.get_uuid_ref b) = some ib)
    (hin : alookup r2.insts ib = alookup r.insts ib) :
    PartZero.reg_has_state r2 b x = PartZero.reg_has_state r b x := by
  simp only [PartZero.reg_has_state, hbr, hib, hin]

/-- C8: Distinct registry instances have disjoint stores: registering a
state, a ref, or a function under any name in the instance registered as
`a` leaves the heap entry of the distinct instance registered as `b`
untouched, so in particular `has_state` on `b` is unchanged. -/
theorem c8_instance_stores_disjoint
    (r : PartZero.Registry) (a b x : String) (g v fv : JSValue) (sid ia ib : Nat)
    (ha : alookup r.bridges (PartZero.get_uuid_ref a) = some ia)
    (hb : alookup r.bridges (PartZero.get_uuid_ref b) = some ib)
    (hab : ia ≠ ib) :
    alookup (PartZero.reg_add_state r a x g sid).insts ib = alookup r.insts ib ∧
    alookup (PartZero.reg_add_ref r a x v).insts ib = alookup r.insts ib ∧
    alookup (PartZero.reg_add_func r a x fv).insts ib = alookup r.insts ib ∧
    PartZero.reg_has_state (PartZero.reg_add_state r a x g sid) b x
      = PartZero.reg_has_state r b x ∧
    PartZero.reg_has_state (PartZero.reg_add_ref r a x v) b x
      = PartZero.reg_has_state r b x ∧
    PartZero.reg_has_state (PartZero.reg_add_func r a x fv) b x
      = PartZero.reg_has_state r b x := by
  have hne : ib ≠ ia := fun hc => hab hc.symm
  have hs : alookup (PartZero.reg_add_state r a x g sid).insts ib = alookup r.insts ib ∧
      (PartZero.reg_add_state r a x g sid).bridges = r.bridges := by
    simp only [PartZero.reg_add_state, ha]
    cases his : alookup r.insts ia with
    | none => exact ⟨rfl, rfl⟩
    | some st => exact ⟨alookup_setEntry_ne r.insts _ hne, rfl⟩
  have hr : alookup (PartZero.reg_add_ref r a x v).insts ib = alookup r.insts ib ∧
      (PartZero.reg_add_ref r a x v).bridges = r.bridges := by
    simp only [PartZero.reg_add_ref, ha]
    cases his : alookup r.insts ia with
    | none => exact ⟨rfl, rfl⟩
    | some st => exact ⟨alookup_setEntry_ne r.insts _ hne, rfl⟩
  have hf : alookup (PartZero.reg_add_func r a x fv).insts ib = alookup r.insts ib ∧
      (PartZero.reg_add_func r a x fv).bridges = r.bridges := by
    simp only [PartZero.reg_add_func, ha]
    cases his : alookup r.insts ia with
    | none => exact ⟨rfl, rfl⟩
    | some st =>
        dsimp only
        cases hcall : PartZero.add_func st x fv with
        | ok st1 => exact ⟨alookup_setEntry_ne r.insts _ hne, rfl⟩
        | error e => exact ⟨rfl, rfl⟩
  exact ⟨hs.1, hr.1, hf.1,
    reg_has_state_congr r _ b x ib hs.2 hb hs.1,
    reg_has_state_congr r _ b x ib hr.2 hb hr.1,
    reg_has_state_congr r _ b x ib hf.2 hb hf.1⟩

/-- Witness for C8: in a registry holding the two distinct instances `a`
(identity 0) and `b` (identity 1), registering the state `x` in `a` leaves
`has_state x` false on `b`. -/
theorem c8_instance_stores_disjoint_witness :
    PartZero.reg_has_state
      (PartZero.reg_add_state
        (PartZero.create_pys_bridge
          (PartZero.create_pys_bridge PartZero.Registry.init "a").1 "b").1
        "a" "x" (JSValue.num 1) 0) "b" "x" = false := by
  have h := c8_instance_stores_disjoint
      (PartZero.create_pys_bridge
        (PartZero.create_pys_bridge PartZero.Registry.init "a").1 "b").1
      "a" "b" "x" (JSValue.num 1) (JSValue.num 1) (JSValue.fn 0) 0 0 1
      (by decide) (by decide) (by decide)
  rw [h.2.2.2.1]
  decide

/-- C4: Readiness-signal resolution is idempotent and the resolved flag is
monotonic, in both realizations.  Resolving an already-resolved signal is a
complete no-op (resolving twice equals resolving once, so already-satisfied
waiters are not released twice, and no failure occurs — the operations are
total functions); and no operation of either API ever takes a signal from
resolved back to unresolved. -/
theorem c4_readiness_idempotent_monotonic :
    (∀ (g : FlatApi.GState) (n : String),
      FlatApi.pys_resolve (FlatApi.pys_resolve g n) n = FlatApi.pys_resolve g n) ∧
    (∀ (g : FlatApi.GState) (n : String) (e : FlatApi.GEvent),
      alookup g.pysPromises n = some true →
      alookup (FlatApi.gstep g e).pysPromises n = some true) ∧
    (∀ (s : PartZero.PState) (n : String),
      PartZero.resolveSignal (PartZero.resolveSignal s n) n
        = PartZero.resolveSignal s n) ∧
    (∀ (s : PartZero.PState) (n : String) (e : PartZero.AEvent),
      alookup s.promise n = some true →
      alookup (PartZero.pstep s e).promise n = some true) := by
  refine ⟨?_, ?_, ?_, ?_⟩
  · intro g n
    by_cases h : alookup g.pysPromises n = some true
    · simp [FlatApi.pys_resolve, h]
    · have h1 : alookup (FlatApi.pys_resolve g n).pysPromises n = some true := by
        rw [FlatApi.pys_resolve, if_neg h, releaseGList_promises]
        exact alookup_setEntry_self _ _ _
      generalize FlatApi.pys_resolve g n = g1 at h1 ⊢
      rw [FlatApi.pys_resolve, if_pos h1]
  · intro g n e h
    cases e with
    | promiseEvt m =>
        simp only [FlatApi.gstep, FlatApi.pys_promise]
        cases hm : alookup g.pysPromises m with
        | none =>
            have hnm : n ≠ m := by
              intro hc
              rw [hc, hm] at h
              cases h
            simpa [alookup_setEntry_ne _ _ hnm] using h
        | some b => simpa using h
    | resolveEvt m =>
        simp only [FlatApi.gstep, FlatApi.pys_resolve]
        by_cases hm : alookup g.pysPromises m = some true
        · simpa [hm] using h
        · rw [if_neg hm, releaseGList_promises]
          by_cases hnm : n = m
          · subst hnm
            exact alookup_setEntry_self _ _ _
          · simpa [alookup_setEntry_ne _ _ hnm] using h
    | registerStateEvt m v sid =>
        simpa [FlatApi.gstep, FlatApi.pys_register_state] using h
    | registerRefEvt m v =>
        simpa [FlatApi.gstep, FlatApi.pys_register_ref] using h
    | funcEvt m v =>
        simpa [FlatApi.gstep, FlatApi.pys_func] using h
    | setEvt m v =>
        simp only [FlatApi.gstep, FlatApi.pys_set]
        cases hm : alookup g.pysStates m with
        | none => simpa using h
        | some gs => simpa using h
    | callFuncEvt f pn args =>
        cases pn with
        | none =>
            simpa [FlatApi.gstep, FlatApi.pys_call_func, runGCall_pysPromises] using h
        | some pn =>
            simp only [FlatApi.gstep, FlatApi.pys_call_func]
            by_cases hpe : pn = ""
            · simpa [hpe, runGCall_pysPromises] using h
            · rw [if_neg hpe]
              cases hm : alookup g.pysPromises pn with
              | none =>
                  have hnm : n ≠ pn := by
                    intro hc
                    rw [hc, hm] at h
                    cases h
                  simpa [alookup_setEntry_ne _ _ hnm] using h
              | some b =>
                  cases b with
                  | true => simpa [runGCall_pysPromises] using h
                  | false => simpa using h
  · intro s n
    by_cases h : alookup s.promise n = some true
    · simp [PartZero.resolveSignal, h]
    · have h1 : alookup (PartZero.resolveSignal s n).promise n = some true := by
        rw [PartZero.resolveSignal, if_neg h, releaseList_promise]
        exact alookup_setEntry_self _ _ _
      generalize PartZero.resolveSignal s n = s1 at h1 ⊢
      rw [PartZero.resolveSignal, if_pos h1]
  · intro s n e h
    cases e with
    | addStateEvt m g sid =>
        simpa [PartZero.pstep, PartZero.add_state] using h
    | setStateEvt m v =>
        simp only [PartZero.pstep, PartZero.set_state]
        cases hm : alookup s.states m with
        | none => simpa using h
        | some gs => simpa using h
    | addRefEvt m v =>
        simpa [PartZero.pstep, PartZero.add_ref] using h
    | addFuncEvt m v =>
        simp only [PartZero.pstep, PartZero.add_func]
        by_cases hfn : v.isFunction
        · simp only [hfn, if_true]
          by_cases hm : alookup s.promise m = some true
          · simpa [PartZero.resolveSignal, hm] using h
          · rw [PartZero.resolveSignal, if_neg (by simpa using hm), releaseList_promise]
            by_cases hnm : n = m
            · subst hnm
              exact alookup_setEntry_self _ _ _
            · simpa [alookup_setEntry_ne _ _ hnm] using h
        · simpa [hfn] using h
    | callFuncEvt m args =>
        simp only [PartZero.pstep, PartZero.call_func]
        cases hm : alookup s.promise m with
        | none =>
            have hnm : n ≠ m := by
              intro hc
              rw [hc, hm] at h
              cases h
            simpa [alookup_setEntry_ne _ _ hnm] using h
        | some b =>
            cases b with
            | true => simpa [runWaiter_promise] using h
            | false => simpa using h

/-- Witness for C4 at concrete inputs: after resolving the signal `p`, a
further `pys_func` registration (flat API) and a further `call_func` on a
different name (per-name variant) both leave `p` resolved. -/
theorem c4_readiness_idempotent_monotonic_witness :
    alookup (FlatApi.gstep (FlatApi.pys_resolve FlatApi.GState.init "p")
        (FlatApi.GEvent.funcEvt "f" (JSValue.fn 1))).pysPromises "p" = some true ∧
    alookup (PartZero.pstep (PartZero.resolveSignal PartZero.PState.init "p")
        (PartZero.AEvent.callFuncEvt "q" [])).promise "p" = some true :=
  ⟨c4_readiness_idempotent_monotonic.2.1 _ "p" _ (by decide),
   c4_readiness_idempotent_monotonic.2.2.2 _ "p" _ (by decide)⟩

/-- C2 (amended): In the per-name-signal variant, `add_func(name, p)` fails
when `p` is not invocable; for an invocable `p` it succeeds, stores `p`
under the name, and resolves the readiness signal for the name (creating it
if absent), so a later `call_func` waiter on the name proceeds immediately
and invokes `p`.  In the class variant of `assets/pysbridge.js`, `add_func`
is an unconditional store: it does not fail for non-invocable values and
touches no readiness signal. -/
theorem c2_add_func_validates_stores_resolves
    (s : PartZero.PState) (t : Asset.JState) (n : String) (v : JSValue)
    (id : Nat) (args : List JSValue) :
    (v.isFunction = false →
      PartZero.add_func s n v = Except.error "Function must be a function.") ∧
    (∃ s1, PartZero.add_func s n (JSValue.fn id) = Except.ok s1 ∧
      alookup s1.funcs n = some (JSValue.fn id) ∧
      alookup s1.promise n = some true ∧
      PartZero.call_func s1 n args = PartZero.runWaiter s1 n args ∧
      (PartZero.call_func s1 n args).calls = s1.calls ++ [(id, args)]) ∧
    Asset.JState.add_func t n v = { t with funcs := setEntry t.funcs n v } := by
  refine ⟨?_, ?_, rfl⟩
  · intro h
    simp [PartZero.add_func, h]
  · have hfuncs : alookup (PartZero.resolveSignal
        { s with funcs := setEntry s.funcs n (JSValue.fn id) } n).funcs n
        = some (JSValue.fn id) := by
      by_cases hm : alookup s.promise n = some true
      · rw [PartZero.resolveSignal, if_pos (by simpa using hm)]
        exact alookup_setEntry_self _ _ _
      · rw [PartZero.resolveSignal, if_neg (by simpa using hm), releaseList_funcs]
        exact alookup_setEntry_self _ _ _
    have hprom : alookup (PartZero.resolveSignal
        { s with funcs := setEntry s.funcs n (JSValue.fn id) } n).promise n
        = some true := by
      by_cases hm : alookup s.promise n = some true
      · rw [PartZero.resolveSignal, if_pos (by simpa using hm)]
        simpa using hm
      · rw [PartZero.resolveSignal, if_neg (by simpa using hm), releaseList_promise]
        exact alookup_setEntry_self _ _ _
    have hcf : PartZero.call_func (PartZero.resolveSignal
        { s with funcs := setEntry s.funcs n (JSValue.fn id) } n) n args
        = PartZero.runWaiter (PartZero.resolveSignal
            { s with funcs := setEntry s.funcs n (JSValue.fn id) } n) n args := by
      rw [PartZero.call_func.eq_def, hprom]
    refine ⟨_, rfl, hfuncs, hprom, hcf, ?_⟩
    rw [hcf, PartZero.runWaiter.eq_def, hfuncs]

/-- Witness for C2 at a concrete input: registering the non-invocable value
`3` in the per-name-signal variant fails with the validation error. -/
theorem c2_add_func_validates_stores_resolves_witness :
    PartZero.add_func PartZero.PState.init "g" (JSValue.num 3)
      = Except.error "Function must be a function." :=
  (c2_add_func_validates_stores_resolves PartZero.PState.init Asset.JState.init
      "g" (JSValue.num 3) 0 []).1 (by decide)

/-- C2 counterexample: in the `assets/pysbridge.js` class variant,
`add_func("g", 3)` with the non-invocable value `3` does not fail — the
method is total and stores the value — and it resolves no readiness signal
(the instance promise stays unresolved), contradicting the claim that
`add_func` fails for non-invocable arguments and then resolves the
readiness signal. -/
theorem c2_asset_add_func_accepts_nonfunction :
    Asset.JState.add_func Asset.JState.init "g" (JSValue.num 3)
      = { funcs := [("g", JSValue.num 3)], resolved := false, pending := [],
          calls := [], errs := [] } := by
  decide

/-- In the per-name-signal variant, `add_func` on a state whose signal for
`f` is unresolved and whose pending list holds exactly one waiter for `f`
(with arguments `args`) succeeds, runs that waiter — invoking the newly
stored function with exactly those arguments — and leaves the remaining
waiters pending. -/
theorem add_func_releases_waiter (s1 : PartZero.PState) (f : String)
    (args : List JSValue) (id : Nat) (p0 : List (String × List JSValue))
    (hp : alookup s1.promise f ≠ some true)
    (hf1 : s1.pending.filter (fun w => w.1 = f) = [(f, args)])
    (hf2 : s1.pending.filter (fun w => w.1 ≠ f) = p0) :
    ∃ s2, PartZero.add_func s1 f (JSValue.fn id) = Except.ok s2 ∧
      s2.calls = s1.calls ++ [(id, args)] ∧ s2.pending = p0 := by
  refine ⟨_, rfl, ?_, ?_⟩
  · rw [PartZero.resolveSignal, if_neg (by simpa using hp)]
    dsimp only
    rw [hf1, hf2]
    simp [PartZero.releaseList, PartZero.runWaiter, alookup_setEntry_self]
  · rw [PartZero.resolveSignal, if_neg (by simpa using hp)]
    dsimp only
    rw [hf1, hf2]
    simp [PartZero.releaseList, PartZero.runWaiter, alookup_setEntry_self]

/-- C1 (amended): In the per-name-signal variant (`src/unnamed/part_000`)
the claim holds as stated: a `call_func(f, args)` issued while the signal
for `f` is unresolved suspends without failing and invokes nothing; once
`add_func(f, fn)` executes, the suspended call proceeds and `fn` is invoked
with exactly those arguments; and a `call_func` issued when `f` is already
registered (signal resolved, function stored) proceeds immediately.  In the
class variant of `src/assets/pysbridge.js`, `call_func` instead awaits the
single instance-wide promise: a call suspends whenever that promise is
unresolved even if `f` is already registered, executing `add_func` does not
release a suspended call, and the suspended call proceeds — invoking `fn`
with those arguments — only when `resolve()` is called on the instance. -/
theorem c1_call_func_readiness_gate
    (s : PartZero.PState) (t : Asset.JState) (f : String)
    (args : List JSValue) (id : Nat) :
    (alookup s.promise f ≠ some true →
      (PartZero.call_func s f args).pending = s.pending ++ [(f, args)] ∧
      (PartZero.call_func s f args).calls = s.calls) ∧
    (alookup s.promise f ≠ some true →
      (∀ w ∈ s.pending, w.1 ≠ f) →
      ∃ s2, PartZero.add_func (PartZero.call_func s f args) f (JSValue.fn id)
          = Except.ok s2 ∧
        s2.calls = s.calls ++ [(id, args)] ∧
        s2.pending = s.pending) ∧
    (alookup s.promise f = some true →
      alookup s.funcs f = some (JSValue.fn id) →
      PartZero.call_func s f args = { s with calls := s.calls ++ [(id, args)] }) ∧
    (t.resolved = false →
      (Asset.JState.call_func t f args).pending = t.pending ++ [(f, args)] ∧
      (Asset.JState.call_func t f args).calls = t.calls) ∧
    (t.resolved = false →
      (Asset.JState.add_func
          (Asset.JState.call_func t f args) f (JSValue.fn id)).pending
        = t.pending ++ [(f, args)] ∧
      (Asset.JState.add_func
          (Asset.JState.call_func t f args) f (JSValue.fn id)).calls
        = t.calls) ∧
    (t.resolved = false → t.pending = [] →
      (Asset.JState.resolve (Asset.JState.add_func
          (Asset.JState.call_func t f args) f (JSValue.fn id))).calls
        = t.calls ++ [(id, args)]) := by
  refine ⟨?_, ?_, ?_, ?_, ?_, ?_⟩
  · intro h1
    rw [PartZero.call_func.eq_def]
    cases hp : alookup s.promise f with
    | none => exact ⟨rfl, rfl⟩
    | some b =>
        cases b with
        | true => exact absurd hp h1
        | false => exact ⟨rfl, rfl⟩
  · intro h1 h2
    have hnil1 : s.pending.filter (fun w => w.1 = f) = [] := by
      rw [List.filter_eq_nil_iff]
      intro a ha
      simpa using h2 a ha
    have hall2 : s.pending.filter (fun w => w.1 ≠ f) = s.pending := by
      rw [List.filter_eq_self]
      intro a ha
      simpa using h2 a ha
    have hfa : List.filter (fun w => w.1 = f) (s.pending ++ [(f, args)])
        = [(f, args)] := by
      rw [List.filter_append, hnil1]
      simp
    have hfb : List.filter (fun w => w.1 ≠ f) (s.pending ++ [(f, args)])
        = s.pending := by
      rw [List.filter_append, hall2]
      simp
    cases hp : alookup s.promise f with
    | none =>
        obtain ⟨s2, hok, hc, hpd⟩ := add_func_releases_waiter
          { s with promise := setEntry s.promise f false,
                   pending := s.pending ++ [(f, args)] } f args id s.pending
          (by simp [alookup_setEntry_self]) hfa hfb
        refine ⟨s2, ?_, hc, hpd⟩
        rw [PartZero.call_func.eq_def, hp]
        exact hok
    | some b =>
        cases b with
        | true => exact absurd hp h1
        | false =>
            obtain ⟨s2, hok, hc, hpd⟩ := add_func_releases_waiter
              { s with pending := s.pending ++ [(f, args)] } f args id s.pending
              (by simp [hp]) hfa hfb
            refine ⟨s2, ?_, hc, hpd⟩
            rw [PartZero.call_func.eq_def, hp]
            exact hok
  · intro hp hf
    rw [PartZero.call_func.eq_def, hp]
    dsimp only
    rw [PartZero.runWaiter.eq_def, hf]
  · intro ht
    rw [Asset.JState.call_func, if_neg (by simp [ht])]
    exact ⟨rfl, rfl⟩
  · intro ht
    rw [Asset.JState.call_func, if_neg (by simp [ht])]
    exact ⟨rfl, rfl⟩
  · intro ht hpend
    rw [Asset.JState.call_func, if_neg (by simp [ht])]
    rw [Asset.JState.add_func]
    rw [Asset.JState.resolve, if_neg (by simp [ht])]
    dsimp only
    rw [hpend]
    simp [Asset.JState.releaseAll, Asset.JState.runJWaiter, alookup_setEntry_self]

/-- Witness for C1 at concrete inputs: from a fresh `part_000` instance,
`call_func("f", 1, 2)` suspends (pending, nothing invoked); a subsequent
`add_func("f", fn7)` succeeds and the function runs with exactly `(1, 2)`;
on an instance with `f` registered and its signal resolved, a call runs at
once; and in the asset-class variant a call suspends, stays suspended after
`add_func`, and runs only after `resolve()`. -/
theorem c1_call_func_readiness_gate_witness :
    (PartZero.call_func PartZero.PState.init "f" [JSValue.num 1, JSValue.num 2]).pending
        = [("f", [JSValue.num 1, JSValue.num 2])] ∧
    (PartZero.call_func PartZero.PState.init "f" [JSValue.num 1, JSValue.num 2]).calls
        = [] ∧
    Except.map PartZero.PState.calls
        (PartZero.add_func
          (PartZero.call_func PartZero.PState.init "f" [JSValue.num 1, JSValue.num 2])
          "f" (JSValue.fn 7))
      = Except.ok [(7, [JSValue.num 1, JSValue.num 2])] ∧
    (PartZero.call_func
        (⟨[], [], [("f", JSValue.fn 7)], [("f", true)], [], [], []⟩ : PartZero.PState)
        "f" [JSValue.num 3]).calls
      = [(7, [JSValue.num 3])] ∧
    (Asset.JState.call_func Asset.JState.init "f" [JSValue.num 2]).pending
      = [("f", [JSValue.num 2])] ∧
    (Asset.JState.add_func
        (Asset.JState.call_func Asset.JState.init "f" [JSValue.num 2])
        "f" (JSValue.fn 7)).calls = [] ∧
    (Asset.JState.resolve (Asset.JState.add_func
        (Asset.JState.call_func Asset.JState.init "f" [JSValue.num 2])
        "f" (JSValue.fn 7))).calls = [(7, [JSValue.num 2])] := by
  have ha := (c1_call_func_readiness_gate PartZero.PState.init Asset.JState.init
      "f" [JSValue.num 1, JSValue.num 2] 7).1 (by decide)
  have hb := (c1_call_func_readiness_gate PartZero.PState.init Asset.JState.init
      "f" [JSValue.num 1, JSValue.num 2] 7).2.1 (by decide) (by simp [PartZero.PState.init])
  have hc := (c1_call_func_readiness_gate
      (⟨[], [], [("f", JSValue.fn 7)], [("f", true)], [], [], []⟩ : PartZero.PState)
      Asset.JState.init "f" [JSValue.num 3] 7).2.2.1 (by decide) (by decide)
  have hd := (c1_call_func_readiness_gate PartZero.PState.init Asset.JState.init
      "f" [JSValue.num 2] 7).2.2.2.1 (by decide)
  have he := (c1_call_func_readiness_gate PartZero.PState.init Asset.JState.init
      "f" [JSValue.num 2] 7).2.2.2.2.1 (by decide)
  have hf := (c1_call_func_readiness_gate PartZero.PState.init Asset.JState.init
      "f" [JSValue.num 2] 7).2.2.2.2.2 (by decide) (by decide)
  obtain ⟨s2, hok, hcalls, hpend⟩ := hb
  refine ⟨by simpa [PartZero.PState.init] using ha.1,
    by simpa [PartZero.PState.init] using ha.2,
    ?_, by rw [hc]; rfl,
    by simpa [Asset.JState.init] using hd.1,
    by simpa [Asset.JState.init] using he.2,
    by simpa [Asset.JState.init] using hf⟩
  rw [hok]
  simp [Except.map, hcalls, PartZero.PState.init]

/-- C1 counterexample: in the class variant of `src/assets/pysbridge.js`
the claim is false as stated.  With `f` already registered via
`add_func("f", fn7)`, a `call_func("f", 1, 2)` does not proceed — it
suspends on the unresolved instance promise (nothing invoked, one pending
waiter); and issuing the call first and then executing `add_func("f", fn7)`
still leaves the call suspended with nothing invoked: `add_func` does not
release the waiter. -/
theorem c1_asset_registered_call_still_suspends :
    (Asset.JState.call_func (Asset.JState.add_func Asset.JState.init "f" (JSValue.fn 7))
        "f" [JSValue.num 1, JSValue.num 2]).calls = [] ∧
    (Asset.JState.call_func (Asset.JState.add_func Asset.JState.init "f" (JSValue.fn 7))
        "f" [JSValue.num 1, JSValue.num 2]).pending
      = [("f", [JSValue.num 1, JSValue.num 2])] ∧
    (Asset.JState.add_func (Asset.JState.call_func Asset.JState.init "f"
        [JSValue.num 1, JSValue.num 2]) "f" (JSValue.fn 7)).calls = [] ∧
    (Asset.JState.add_func (Asset.JState.call_func Asset.JState.init "f"
        [JSValue.num 1, JSValue.num 2]) "f" (JSValue.fn 7)).pending
      = [("f", [JSValue.num 1, JSValue.num 2])] := by
  decide

/-- C5 (amended): `pys_call_func(name, promiseName, ...args)` waits on the
readiness signal named `promiseName` — which may differ from `name` — when
`promiseName` is a non-empty string (creating the signal lazily and
suspending while it is unresolved, proceeding at once when it is resolved);
it skips waiting entirely when `promiseName` is omitted, not a string, or
the empty string; and the continuation invokes the function stored under
`name` with `args`, failing with `Function ... not function.` when no
function is stored there. -/
theorem c5_pys_call_func_wait_semantics
    (g : FlatApi.GState) (fname pn : String) (args : List JSValue) (id : Nat) :
    FlatApi.pys_call_func g fname none args = FlatApi.runGCall g fname args ∧
    FlatApi.pys_call_func g fname (some "") args = FlatApi.runGCall g fname args ∧
    (pn ≠ "" → alookup g.pysPromises pn ≠ some true →
      (FlatApi.pys_call_func g fname (some pn) args).pending
          = g.pending ++ [(pn, fname, args)] ∧
      (FlatApi.pys_call_func g fname (some pn) args).calls = g.calls ∧
      (FlatApi.pys_call_func g fname (some pn) args).errs = g.errs) ∧
    (pn ≠ "" → alookup g.pysPromises pn = some true →
      FlatApi.pys_call_func g fname (some pn) args = FlatApi.runGCall g fname args) ∧
    (alookup g.pysFunctions fname = some (JSValue.fn id) →
      FlatApi.runGCall g fname args = { g with calls := g.calls ++ [(id, args)] }) ∧
    ((∀ j, alookup g.pysFunctions fname ≠ some (JSValue.fn j)) →
      FlatApi.runGCall g fname args
        = { g with errs := g.errs ++ ["Function " ++ fname ++ " not function."] }) := by
  refine ⟨rfl, rfl, ?_, ?_, ?_, ?_⟩
  · intro hne hun
    rw [FlatApi.pys_call_func.eq_def]
    dsimp only
    rw [if_neg hne]
    cases hm : alookup g.pysPromises pn with
    | none => exact ⟨rfl, rfl, rfl⟩
    | some b =>
        cases b with
        | true => exact absurd hm hun
        | false => exact ⟨rfl, rfl, rfl⟩
  · intro hne hm
    rw [FlatApi.pys_call_func.eq_def]
    dsimp only
    rw [if_neg hne, hm]
  · intro hf
    rw [FlatApi.runGCall.eq_def, hf]
  · intro hf
    rw [FlatApi.runGCall.eq_def]
    cases hm : alookup g.pysFunctions fname with
    | none => rfl
    | some v =>
        cases v with
        | fn j => exact absurd hm (hf j)
        | undef => rfl
        | bool b => rfl
        | num m => rfl
        | str t => rfl
        | obj o => rfl

/-- Witness for C5 at concrete inputs: a call with the fresh non-empty
signal name `p` suspends without invoking anything; a call whose signal is
already resolved proceeds; the continuation invokes a stored function with
the given arguments; and with no function stored it records the
`not function` failure. -/
theorem c5_pys_call_func_wait_semantics_witness :
    (FlatApi.pys_call_func FlatApi.GState.init "f" (some "p") [JSValue.num 4]).pending
        = [("p", "f", [JSValue.num 4])] ∧
    FlatApi.pys_call_func
        (⟨[("p", true)], [], [], [("f", JSValue.fn 5)], [], [], [], []⟩ : FlatApi.GState)
        "f" (some "p") [JSValue.num 4]
      = FlatApi.runGCall
          (⟨[("p", true)], [], [], [("f", JSValue.fn 5)], [], [], [], []⟩ : FlatApi.GState)
          "f" [JSValue.num 4] ∧
    FlatApi.runGCall
        (⟨[("p", true)], [], [], [("f", JSValue.fn 5)], [], [], [], []⟩ : FlatApi.GState)
        "f" [JSValue.num 4]
      = (⟨[("p", true)], [], [], [("f", JSValue.fn 5)], [], [(5, [JSValue.num 4])],
          [], []⟩ : FlatApi.GState) ∧
    FlatApi.runGCall FlatApi.GState.init "f" []
      = (⟨[], [], [], [], [], [], [], ["Function f not function."]⟩ : FlatApi.GState) := by
  have h1 := (c5_pys_call_func_wait_semantics FlatApi.GState.init "f" "p"
      [JSValue.num 4] 5).2.2.1 (by decide) (by decide)
  have h2 := (c5_pys_call_func_wait_semantics
      (⟨[("p", true)], [], [], [("f", JSValue.fn 5)], [], [], [], []⟩ : FlatApi.GState)
      "f" "p" [JSValue.num 4] 5).2.2.2.1 (by decide) (by decide)
  have h3 := (c5_pys_call_func_wait_semantics
      (⟨[("p", true)], [], [], [("f", JSValue.fn 5)], [], [], [], []⟩ : FlatApi.GState)
      "f" "p" [JSValue.num 4] 5).2.2.2.2.1 (by decide)
  have h4 := (c5_pys_call_func_wait_semantics FlatApi.GState.init "f" "p" [] 5).2.2.2.2.2
      (by intro j; simp [FlatApi.GState.init, alookup])
  exact ⟨by simpa [FlatApi.GState.init] using h1.1, h2, by rw [h3]; rfl, by rw [h4]; rfl⟩

/-- C5 counterexample: with a function stored under `f` and the readiness
signal named `""` never created (hence unresolved), the call
`pys_call_func("f", "", ...)` supplies a promise name yet performs no wait
at all — it invokes the function immediately and suspends nothing — because
the guard demands a non-empty string.  Under the claim as stated the
provided promise name `""` should have been awaited, i.e. the call should
have suspended on the unresolved signal. -/
theorem c5_empty_promise_name_skips_wait :
    FlatApi.pys_call_func
        (⟨[], [], [], [("f", JSValue.fn 5)], [], [], [], []⟩ : FlatApi.GState)
        "f" (some "") []
      = (⟨[], [], [], [("f", JSValue.fn 5)], [], [(5, [])], [], []⟩ : FlatApi.GState) := by
  decide
